import Mathlib

/-!
Verification of the balena-os/log-streamer backpressure-aware log shipping
pipeline (src/lib/index.ts and src/lib/got.ts) against its design document.

The heart of the program is a small event-driven state machine around a gzip
stream: a `write` entry point (src/lib/index.ts lines 83-98), a `drain`
handler (lines 100-112), and a connection-establishment handshake
(lines 16-122).  We embed that state machine shallowly:

* Log records (`LogMessage`) are open objects whose values are the scalar
  JSON types the program's records actually carry (`message`, `timestamp`,
  `serviceId`, `isSystem`, `isStdErr`); the constructor `JVal.jbigint`
  models a value on which `JSON.stringify` throws (a `TypeError`, as for a
  `BigInt`), which is the program's only serialization failure mode.
* `stringifyMsg` models `JSON.stringify` on such records: `{"k":v,...}` in
  insertion order, strings escaped, `none` when serialization throws.
* The gzip sink is modelled by the list of plaintext chunks written into it,
  in order.  Gzip with `Z_SYNC_FLUSH` is lossless, so the decompressed body
  equals the concatenation of those chunks; `decompressedOutput` is that
  concatenation and stands for "decompress the produced output stream".
* Since the JavaScript runtime is single-threaded, a session history is a
  list of interleaved `write` calls and `drain` events, each `write` carrying
  the boolean that `gzip.write` returns for it (the sink's capacity signal).
-/

namespace LogStreamer

/-- Scalar JSON values as they occur in the program's log records, plus
`jbigint`, a value on which `JSON.stringify` throws (`TypeError`). -/
inductive JVal : Type
  | jnull : JVal
  | jbool : Bool → JVal
  | jnum : Int → JVal
  | jstr : String → JVal
  | jbigint : Int → JVal
deriving DecidableEq, Repr

/-- A log record: an open object, keys in insertion order
(`LogMessage` in src/lib/index.ts line 6). -/
def LogMessage : Type := List (String × JVal)

instance : DecidableEq LogMessage := by
  unfold LogMessage
  infer_instance

/-- Escaping of one character inside a JSON string literal, as
`JSON.stringify` performs it for the characters that matter here. -/
def escChar (c : Char) : List Char :=
  if c = '"' then ['\\', '"']
  else if c = '\\' then ['\\', '\\']
  else if c = '\n' then ['\\', 'n']
  else if c = '\r' then ['\\', 'r']
  else if c = '\t' then ['\\', 't']
  else [c]

/-- Escaping of a whole string body. -/
def escList (cs : List Char) : List Char :=
  (cs.map escChar).flatten

/-- A JSON string literal: opening quote, escaped body, closing quote. -/
def jstrChars (s : String) : List Char :=
  '"' :: (escList s.data ++ ['"'])

/-- Decimal digit character. -/
def digitChar (d : Nat) : Char := Char.ofNat (48 + d)

/-- Decimal representation of a natural number, most significant digit
first, with explicit fuel so that evaluation is kernel-reducible. -/
def natCharsAux : Nat → Nat → List Char
  | 0, _ => []
  | fuel + 1, n =>
    if n < 10 then [digitChar n]
    else natCharsAux fuel (n / 10) ++ [digitChar (n % 10)]

/-- Decimal representation of a natural number. -/
def natChars (n : Nat) : List Char := natCharsAux (n + 1) n

/-- Decimal representation of an integer, as JavaScript prints an integral
number into a template string or JSON output. -/
def intChars (n : Int) : List Char :=
  if n < 0 then '-' :: natChars n.natAbs else natChars n.natAbs

/-- Serialization of one scalar value; `none` models a thrown `TypeError`. -/
def valChars : JVal → Option (List Char)
  | .jnull => some ("null".data)
  | .jbool true => some ("true".data)
  | .jbool false => some ("false".data)
  | .jnum n => some (intChars n)
  | .jstr s => some (jstrChars s)
  | .jbigint _ => none

/-- Serialization of one `"key":value` field. -/
def fieldChars (k : String) (v : JVal) : Option (List Char) :=
  match valChars v with
  | none => none
  | some vc => some (jstrChars k ++ ':' :: vc)

/-- Comma-separated serialization of the fields of an object. -/
def fieldsChars : List (String × JVal) → Option (List Char)
  | [] => some []
  | [kv] => fieldChars kv.1 kv.2
  | kv :: kv' :: rest =>
    match fieldChars kv.1 kv.2, fieldsChars (kv' :: rest) with
    | some f, some r => some (f ++ ',' :: r)
    | _, _ => none

/-- `JSON.stringify` on a log record: `none` models the throwing case. -/
def stringifyMsg (m : LogMessage) : Option (List Char) :=
  match fieldsChars m with
  | none => none
  | some fs => some (Char.ofNat 123 :: (fs ++ [Char.ofNat 125]))

/-! ## Splitting a byte stream on newlines

`splitNl` models splitting a character stream on `'\n'`; `ndjsonLines`
additionally discards the empty segment after the final newline, which is
how an NDJSON consumer reads "one record per line". -/

/-- Split a character stream at every newline. -/
def splitNl : List Char → List (List Char)
  | [] => [[]]
  | c :: cs =>
    if c = '\n' then [] :: splitNl cs
    else
      match splitNl cs with
      | [] => [[c]]
      | r :: rs => (c :: r) :: rs

/-- The lines of an NDJSON stream: split on newlines, dropping the empty
segment that follows the final newline. -/
def ndjsonLines (cs : List Char) : List (List Char) :=
  (splitNl cs).dropLast

/-! ## The pipeline session state machine

State of one pipeline session (src/lib/index.ts lines 80-112): the
writability flag and drop counter, plus the ordered list of plaintext
chunks that have been written into the gzip sink.  `gzip.flush()` only
affects when compressed bytes are emitted, never which plaintext bytes the
stream carries, so it does not appear in the state. -/

structure SessionState where
  writable : Bool
  dropCount : Nat
  sink : List (List Char)
deriving DecidableEq, Repr

/-- Initial session state: `writable = true`, `dropCount = 0`
(src/lib/index.ts lines 80-81), nothing written yet. -/
def initState : SessionState := ⟨true, 0, []⟩

/-- The `write` closure (src/lib/index.ts lines 83-98).  `accept` is the
boolean the sink (`gzip.write`) returns for this chunk — the capacity
signal that becomes the new writability flag.  A serialization throw
(`stringifyMsg _ = none`) is caught: the message is dropped, the state
untouched, and no exception reaches the caller. -/
def write (st : SessionState) (msg : LogMessage) (accept : Bool) : SessionState :=
  if st.writable then
    match stringifyMsg msg with
    | some line =>
      { st with writable := accept, sink := st.sink ++ [line ++ ['\n']] }
    | none => st
  else
    { st with dropCount := st.dropCount + 1 }

/-- The synthetic warning record the drain handler pushes
(src/lib/index.ts lines 103-108). -/
def warningMsg (dropCount : Nat) (now : Int) : LogMessage :=
  [("message", .jstr ("Warning: Suppressed " ++ toString dropCount
      ++ " message(s) due to high load")),
   ("timestamp", .jnum now),
   ("isSystem", .jbool true),
   ("isStdErr", .jbool true)]

/-- The `drain` handler (src/lib/index.ts lines 100-112): restore
writability, and if any messages were dropped, push one warning record
through `write` and reset the counter.  `now` is `Date.now()` at the time
the drain event fires; `accept` is the sink's return for the warning
chunk. -/
def drain (st : SessionState) (now : Int) (accept : Bool) : SessionState :=
  let st1 := { st with writable := true }
  if st1.dropCount > 0 then
    let st2 := write st1 (warningMsg st1.dropCount now) accept
    { st2 with dropCount := 0 }
  else st1

/-- One observable event of a session: a `write` call (with the sink's
capacity answer) or a drain event from the sink. -/
inductive Event : Type
  | ewrite : LogMessage → Bool → Event
  | edrain : Int → Bool → Event

/-- Step the session state by one event. -/
def step (st : SessionState) : Event → SessionState
  | .ewrite m a => write st m a
  | .edrain n a => drain st n a

/-- Run a session history. -/
def run (st : SessionState) (evs : List Event) : SessionState :=
  evs.foldl step st

/-- The decompressed request body: gzip with `Z_SYNC_FLUSH` is lossless,
so decompressing the produced output stream yields exactly the
concatenation of the plaintext chunks written into the sink. -/
def decompressedOutput (st : SessionState) : List Char :=
  st.sink.flatten

/-- The single newline-terminated chunk the drain handler pushes for a
non-zero drop count. -/
def warningLine (n : Nat) (t : Int) : List Char :=
  (stringifyMsg (warningMsg n t)).getD [] ++ ['\n']

/-- The warning line of the design document's scenario, without the
`Warning: ` prefix the code adds. -/
def specSuppressedLine (n : Nat) : String :=
  "Suppressed " ++ toString n ++ " message(s) due to high load"

/-! ## The connection establishment handshake

`Logger` (src/lib/index.ts lines 16-122) opens one POST request, arms the
four terminal-condition listeners, flushes the headers, sleeps for the
grace period and only then resolves the promise with `write`.  The
JavaScript runtime is single-threaded, so what decides the outcome is
which — if any — terminal event fires first during the grace period; we
model the attempt as a function of that first event.

The crucial difference between the two source files: in src/lib/got.ts
(second variant, lines 140-165) each listener calls `reject(...)`, settling
the constructor's promise; in src/lib/index.ts (lines 39-62) each listener
does `throw new LoggerError(...)` from inside an event callback of a
`new Promise(async (resolve) => ...)` that never even binds a `reject`
parameter — such a throw is an uncaught exception, and the promise is never
rejected.  `Outcome` distinguishes the three cases. -/

/-- The four terminal conditions armed during the grace period. -/
inductive TermEvent : Type
  | response : Nat → TermEvent
  | timeout : TermEvent
  | close : TermEvent
  | errorEv : TermEvent
deriving DecidableEq, Repr

/-- Outcome of one construction attempt, as seen through the promise the
constructor returns: the promise resolved with the write function, the
promise was rejected with a `LoggerError`, or a `LoggerError` was thrown
outside the promise machinery (an uncaught exception; the promise is left
unsettled forever). -/
inductive Outcome : Type
  | resolvedWrite : Outcome
  | rejected : String → Outcome
  | thrown : String → Outcome
deriving DecidableEq, Repr

/-- Whether the promise was rejected. -/
def Outcome.isRejected : Outcome → Bool
  | .rejected _ => true
  | _ => false

/-- Whether the promise resolved with the write function. -/
def Outcome.isResolved : Outcome → Bool
  | .resolvedWrite => true
  | _ => false

def RESPONSE_GRACE_PERIOD : Nat := 5 * 1000

def REQUEST_TIMEOUT : Nat := 59 * 1000

/-- Error messages of the handlers in src/lib/index.ts lines 39-62. -/
def indexErrMsg : TermEvent → String
  | .response c =>
    "Received response from log backend with status code: " ++ toString c
  | .timeout => "Request timed out when trying to connect to the log backend"
  | .close => "Request to the log backend terminated prematurely"
  | .errorEv => "Request to the log backend terminated with unknown error"

/-- Error messages of the handlers in src/lib/got.ts lines 140-165. -/
def gotErrMsg : TermEvent → String
  | .response c =>
    "Received response from log backend with status code: " ++ toString c
  | .timeout => "Request timed out when trying to connect to the log backend"
  | .close => "Request to the log backend terminated prematurely"
  | .errorEv => "Request to the log backend terminated prematurely"

/-- The construction attempt of src/lib/index.ts lines 16-122, as a
function of the first terminal event fired during the grace period (`none`
when the grace period elapses quietly).  The handlers throw; since the
promise executor has no `reject` parameter at all, a terminal event yields
an uncaught exception and the promise never settles. -/
def indexConstruct : Option TermEvent → Outcome
  | none => .resolvedWrite
  | some e => .thrown (indexErrMsg e)

/-- The construction attempt of src/lib/got.ts lines 119-250: here the
handlers call `reject`, so the first terminal event rejects the promise. -/
def gotConstruct : Option TermEvent → Outcome
  | none => .resolvedWrite
  | some e => .rejected (gotErrMsg e)

/-! ## The outbound request and the constructor's action order -/

/-- The request options passed to `https.request`
(src/lib/index.ts lines 18-30). -/
structure RequestConfig where
  method : String
  timeoutMs : Nat
  headers : List (String × String)
deriving DecidableEq, Repr

/-- The one request src/lib/index.ts opens: note the fourth header,
`Keep-Alive`, alongside the three the design document lists. -/
def indexRequest (secret : String) : RequestConfig :=
  { method := "POST"
    timeoutMs := REQUEST_TIMEOUT
    headers :=
      [("Authorization", "Bearer " ++ secret),
       ("Content-Type", "application/x-ndjson"),
       ("Content-Encoding", "gzip"),
       ("Keep-Alive", "timeout=" ++ toString (REQUEST_TIMEOUT / 1000))] }

/-- The successive actions of the constructor body, in program order
(src/lib/index.ts lines 18-121).  Body bytes can only ever be produced by
the `write` function, which exists for the caller only after
`resolveWrite`. -/
inductive ConstructStep : Type
  | openRequest : RequestConfig → ConstructStep
  | installHandlers : ConstructStep
  | flushHeadersStep : ConstructStep
  | createGzipPipeline : ConstructStep
  | sleepGrace : Nat → ConstructStep
  | resolveWrite : ConstructStep
deriving DecidableEq, Repr

/-- Program order of the constructor of src/lib/index.ts: open the request
(lines 18-34), install the terminal handlers (39-62), flush the headers
(66), create the gzip pipeline (68-78), sleep the grace period (118),
resolve with `write` (121). -/
def indexConstructTrace (secret : String) : List ConstructStep :=
  [.openRequest (indexRequest secret),
   .installHandlers,
   .flushHeadersStep,
   .createGzipPipeline,
   .sleepGrace RESPONSE_GRACE_PERIOD,
   .resolveWrite]

/-- The construction-time knobs of src/lib/index.ts, as a function of
everything the caller can pass (`Logger(url, secret)`, line 16). -/
structure IndexKnobs where
  gracePeriodMs : Nat
  requestTimeoutMs : Nat
deriving DecidableEq, Repr

/-- Whatever url and secret the caller passes, the knobs are the two module
constants of src/lib/index.ts lines 12-13; there is no config parameter. -/
def indexKnobs (_url _secret : String) : IndexKnobs :=
  { gracePeriodMs := RESPONSE_GRACE_PERIOD
    requestTimeoutMs := REQUEST_TIMEOUT }

def ZLIB_TIMEOUT : Nat := 100

def MAX_PENDING_BYTES : Nat := 256 * 1024

/-- The knobs of the src/lib/got.ts variant (lines 114-116): flush cadence,
buffer limit and grace period are module constants, again with no config
parameter on `Logger(endpoint, secret)`. -/
structure GotKnobs where
  flushIntervalMs : Nat
  maxPendingBytes : Nat
  gracePeriodMs : Nat
deriving DecidableEq, Repr

def gotKnobs (_endpoint _secret : String) : GotKnobs :=
  { flushIntervalMs := ZLIB_TIMEOUT
    maxPendingBytes := MAX_PENDING_BYTES
    gracePeriodMs := RESPONSE_GRACE_PERIOD }

/-! ## The throttled flush (src/lib/got.ts lines 123 and 203-205)

`flush` is `pThrottle({ limit: 1, interval: ZLIB_TIMEOUT })` applied to
`gzip.flush(Z_SYNC_FLUSH)`.  p-throttle keeps a window start `currentTick`
and a count of executions in the window; with limit 1, a call inside the
current window pushes the window forward one interval and executes at its
start.  Each `write` with the flag up calls `flush()` (line 212), so the
flush call times of a burst are the write call times. -/

structure ThrottleState where
  currentTick : Nat
  activeCount : Nat
deriving DecidableEq, Repr

def throttleInit : ThrottleState := ⟨0, 0⟩

/-- One call of the p-throttle wrapped function at time `now`: the new
state and the time at which this call's execution fires
(`setTimeout(execute, currentTick - now)`). -/
def throttleCall (interval : Nat) (st : ThrottleState) (now : Nat) :
    ThrottleState × Nat :=
  if interval < now - st.currentTick then (⟨now, 1⟩, now)
  else if st.activeCount < 1 then
    (⟨st.currentTick, st.activeCount + 1⟩, max st.currentTick now)
  else (⟨st.currentTick + interval, 1⟩, max (st.currentTick + interval) now)

/-- Execution times of a sequence of calls to the throttled function. -/
def throttleExecs (interval : Nat) : ThrottleState → List Nat → List Nat
  | _, [] => []
  | st, t :: ts =>
    (throttleCall interval st t).2
      :: throttleExecs interval (throttleCall interval st t).1 ts

/-- Times at which the synchronizing flush actually runs for a burst of
`write` calls at the given times (src/lib/got.ts: `write` calls `flush()`
once per accepted record, and `flush` is the throttled
`gzip.flush(Z_SYNC_FLUSH)`). -/
def flushExecTimes (writeTimes : List Nat) : List Nat :=
  throttleExecs ZLIB_TIMEOUT throttleInit writeTimes

/-- Test fixture: a record with a single string field. -/
def msgA : LogMessage := [("message", JVal.jstr "a")]

/-- Test fixture: a record with a single string field. -/
def msgB : LogMessage := [("message", JVal.jstr "b")]

/-- Test fixture: a record whose serialization throws (`BigInt` value). -/
def badMsg : LogMessage := [("count", JVal.jbigint 1)]

theorem escChar_ne_newline {c c' : Char} (h : c' ∈ escChar c) : c' ≠ '\n' := by
  rintro rfl
  unfold escChar at h
  split at h
  · exact absurd h (by decide)
  · split at h
    · exact absurd h (by decide)
    · split at h
      · exact absurd h (by decide)
      · split at h
        · exact absurd h (by decide)
        · split at h
          · exact absurd h (by decide)
          · rw [List.mem_singleton] at h
            exact absurd h.symm (by assumption)

theorem newline_not_mem_escList (cs : List Char) : '\n' ∉ escList cs := by
  intro hmem
  unfold escList at hmem
  rcases List.mem_flatten.mp hmem with ⟨l, hl, hc⟩
  rcases List.mem_map.mp hl with ⟨c, _, rfl⟩
  exact escChar_ne_newline hc rfl

theorem newline_not_mem_jstrChars (s : String) : '\n' ∉ jstrChars s := by
  unfold jstrChars
  intro h
  rcases List.mem_cons.mp h with h | h
  · exact absurd h (by decide)
  · rcases List.mem_append.mp h with h | h
    · exact newline_not_mem_escList s.data h
    · exact absurd h (by decide)

theorem digitChar_ne_newline {d : Nat} (h : d < 10) : digitChar d ≠ '\n' := by
  have hall : ∀ e, e < 10 → digitChar e ≠ '\n' := by decide
  exact hall d h

theorem newline_not_mem_natCharsAux (fuel n : Nat) :
    '\n' ∉ natCharsAux fuel n := by
  induction fuel generalizing n with
  | zero => simp [natCharsAux]
  | succ fuel ih =>
    unfold natCharsAux
    split
    · next h =>
      intro hmem
      rw [List.mem_singleton] at hmem
      exact digitChar_ne_newline h hmem.symm
    · intro hmem
      rcases List.mem_append.mp hmem with hmem | hmem
      · exact ih _ hmem
      · rw [List.mem_singleton] at hmem
        exact digitChar_ne_newline (Nat.mod_lt _ (by omega)) hmem.symm

theorem newline_not_mem_natChars (n : Nat) : '\n' ∉ natChars n :=
  newline_not_mem_natCharsAux _ _

theorem newline_not_mem_intChars (n : Int) : '\n' ∉ intChars n := by
  unfold intChars
  split
  · intro h
    rcases List.mem_cons.mp h with h | h
    · exact absurd h (by decide)
    · exact newline_not_mem_natChars _ h
  · exact newline_not_mem_natChars _

theorem newline_not_mem_valChars {v : JVal} {cs : List Char}
    (h : valChars v = some cs) : '\n' ∉ cs := by
  cases v with
  | jnull =>
    simp only [valChars, Option.some.injEq] at h
    subst h; decide
  | jbool b =>
    cases b <;> simp only [valChars, Option.some.injEq] at h <;>
      subst h <;> decide
  | jnum n =>
    simp only [valChars, Option.some.injEq] at h
    subst h
    exact newline_not_mem_intChars n
  | jstr s =>
    simp only [valChars, Option.some.injEq] at h
    subst h
    exact newline_not_mem_jstrChars s
  | jbigint n => simp [valChars] at h

theorem newline_not_mem_fieldChars {k : String} {v : JVal} {cs : List Char}
    (h : fieldChars k v = some cs) : '\n' ∉ cs := by
  unfold fieldChars at h
  split at h
  · exact absurd h (by simp)
  · next vc hv =>
    simp only [Option.some.injEq] at h
    subst h
    intro hmem
    rcases List.mem_append.mp hmem with hmem | hmem
    · exact newline_not_mem_jstrChars k hmem
    · rcases List.mem_cons.mp hmem with hmem | hmem
      · exact absurd hmem (by decide)
      · exact newline_not_mem_valChars hv hmem

theorem newline_not_mem_fieldsChars :
    ∀ (m : List (String × JVal)) (cs : List Char),
      fieldsChars m = some cs → '\n' ∉ cs
  | [], cs, h => by
    simp only [fieldsChars, Option.some.injEq] at h
    subst h
    simp
  | [kv], cs, h => by
    simp only [fieldsChars] at h
    exact newline_not_mem_fieldChars h
  | kv :: kv' :: rest, cs, h => by
    simp only [fieldsChars] at h
    split at h
    · next f r hf hr =>
      simp only [Option.some.injEq] at h
      subst h
      intro hmem
      rcases List.mem_append.mp hmem with hmem | hmem
      · exact newline_not_mem_fieldChars hf hmem
      · rcases List.mem_cons.mp hmem with hmem | hmem
        · exact absurd hmem (by decide)
        · exact newline_not_mem_fieldsChars _ _ hr hmem
    · exact absurd h (by simp)

theorem newline_not_mem_stringifyMsg {m : LogMessage} {cs : List Char}
    (h : stringifyMsg m = some cs) : '\n' ∉ cs := by
  unfold stringifyMsg at h
  split at h
  · exact absurd h (by simp)
  · next fs hf =>
    simp only [Option.some.injEq] at h
    subst h
    intro hmem
    rcases List.mem_cons.mp hmem with hmem | hmem
    · exact absurd hmem (by decide)
    · rcases List.mem_append.mp hmem with hmem | hmem
      · exact newline_not_mem_fieldsChars _ _ hf hmem
      · exact absurd hmem (by decide)

theorem splitNl_ne_nil (cs : List Char) : splitNl cs ≠ [] := by
  induction cs with
  | nil => simp [splitNl]
  | cons c cs ih =>
    unfold splitNl
    split
    · simp
    · split
      · simp
      · simp

theorem splitNl_append_line {l : List Char} (rest : List Char)
    (hl : '\n' ∉ l) : splitNl (l ++ '\n' :: rest) = l :: splitNl rest := by
  induction l with
  | nil => simp [splitNl]
  | cons c l ih =>
    have hc : c ≠ '\n' := fun h => hl (h ▸ List.mem_cons_self c l)
    have hl' : '\n' ∉ l := fun h => hl (List.mem_cons_of_mem c h)
    simp only [List.cons_append, splitNl, if_neg hc]
    rw [show l.append ('\n' :: rest) = l ++ '\n' :: rest from rfl, ih hl']

/-- Concatenating newline-terminated, newline-free lines and splitting the
result back recovers exactly those lines. -/
theorem ndjsonLines_flatten (lines : List (List Char))
    (h : ∀ l ∈ lines, '\n' ∉ l) :
    ndjsonLines (lines.map (fun l => l ++ ['\n'])).flatten = lines := by
  induction lines with
  | nil => simp [ndjsonLines, splitNl]
  | cons l ls ih =>
    have hl : '\n' ∉ l := h l (List.mem_cons_self l ls)
    have hrest : ∀ l' ∈ ls, '\n' ∉ l' := fun l' hm => h l' (List.mem_cons_of_mem l hm)
    have : ((l :: ls).map (fun l => l ++ ['\n'])).flatten
        = l ++ '\n' :: (ls.map (fun l => l ++ ['\n'])).flatten := by
      simp
    rw [this]
    unfold ndjsonLines
    rw [splitNl_append_line _ hl]
    rw [List.dropLast_cons_of_ne_nil (splitNl_ne_nil _)]
    have ihr := ih hrest
    unfold ndjsonLines at ihr
    rw [ihr]

theorem run_nil (st : SessionState) : run st [] = st := rfl

theorem run_cons (st : SessionState) (e : Event) (evs : List Event) :
    run st (e :: evs) = run (step st e) evs := rfl

theorem run_append (st : SessionState) (evs evs' : List Event) :
    run st (evs ++ evs') = run (run st evs) evs' := by
  unfold run
  rw [List.foldl_append]

theorem write_not_writable {st : SessionState} (m : LogMessage) (a : Bool)
    (h : st.writable = false) :
    write st m a = ⟨false, st.dropCount + 1, st.sink⟩ := by
  cases st with
  | mk w d s =>
    change w = false at h
    subst h
    simp [write]

theorem write_serialize_throw {st : SessionState} {m : LogMessage} (a : Bool)
    (hw : st.writable = true) (hs : stringifyMsg m = none) :
    write st m a = st := by
  unfold write
  rw [hw, hs]
  simp

theorem write_ok {st : SessionState} {m : LogMessage} {l : List Char} (a : Bool)
    (hw : st.writable = true) (hs : stringifyMsg m = some l) :
    write st m a = ⟨a, st.dropCount, st.sink ++ [l ++ ['\n']]⟩ := by
  cases st with
  | mk w d s =>
    change w = true at hw
    subst hw
    simp [write, hs]

/-- Running a sequence of `write` calls that all serialize and are all
accepted by the sink appends exactly one newline-terminated line per
record, in call order, leaving the flag true and the counter untouched. -/
theorem run_writes_ok (msgs : List LogMessage) (lines : List (List Char))
    (st : SessionState) (hw : st.writable = true)
    (h : msgs.map stringifyMsg = lines.map some) :
    run st (msgs.map (fun m => Event.ewrite m true))
      = ⟨true, st.dropCount, st.sink ++ lines.map (fun l => l ++ ['\n'])⟩ := by
  induction msgs generalizing lines st with
  | nil =>
    cases lines with
    | nil => cases st with | mk w d s => simp_all [run_nil]
    | cons l ls => simp at h
  | cons m ms ih =>
    cases lines with
    | nil => simp at h
    | cons l ls =>
      simp only [List.map_cons, List.cons.injEq] at h
      obtain ⟨hm, hms⟩ := h
      rw [List.map_cons, run_cons]
      show run (write st m true) (ms.map (fun m => Event.ewrite m true)) = _
      rw [write_ok true hw hm]
      rw [ih ls _ rfl hms]
      simp

/-- Running a sequence of `write` calls while the flag is false only counts
drops: the sink and the flag are untouched. -/
theorem run_writes_dropped (ps : List (LogMessage × Bool)) (st : SessionState)
    (hw : st.writable = false) :
    run st (ps.map (fun p => Event.ewrite p.1 p.2))
      = ⟨false, st.dropCount + ps.length, st.sink⟩ := by
  induction ps generalizing st with
  | nil =>
    cases st with
    | mk w d s =>
      change w = false at hw
      subst hw
      simp [run_nil]
  | cons p ps ih =>
    rw [List.map_cons, run_cons]
    show run (write st p.1 p.2) (ps.map (fun p => Event.ewrite p.1 p.2)) = _
    rw [write_not_writable p.1 p.2 hw]
    rw [ih _ rfl]
    simp only [List.length_cons]
    congr 1
    omega

/-- Serialization of the synthetic warning record always succeeds: its
values are a string, a number and two booleans. -/
theorem stringifyMsg_warningMsg_isSome (n : Nat) (t : Int) :
    (stringifyMsg (warningMsg n t)).isSome := by
  simp [stringifyMsg, warningMsg, fieldsChars, fieldChars, valChars]

/-- A drain event with a positive drop counter resets the counter and
appends exactly the one warning line to the sink — nothing else. -/
theorem drain_with_drops (st : SessionState) (now : Int) (accept : Bool)
    (hd : 0 < st.dropCount) :
    drain st now accept
      = ⟨accept, 0, st.sink ++ [warningLine st.dropCount now]⟩ := by
  cases hsw : stringifyMsg (warningMsg st.dropCount now) with
  | none =>
    have hsome := stringifyMsg_warningMsg_isSome st.dropCount now
    rw [hsw] at hsome
    simp at hsome
  | some wline =>
    cases st with
    | mk w d s =>
      change 0 < d at hd
      change stringifyMsg (warningMsg d now) = some wline at hsw
      unfold drain
      simp only [gt_iff_lt]
      rw [if_pos hd]
      rw [write_ok accept rfl hsw]
      unfold warningLine
      rw [hsw]
      rfl

theorem throttleCall_jump {I e a t : Nat} (h : I < t - e) :
    throttleCall I ⟨e, a⟩ t = (⟨t, 1⟩, t) := by
  simp only [throttleCall]
  rw [if_pos h]

theorem throttleCall_defer {I e t : Nat} (h : ¬ I < t - e) :
    throttleCall I ⟨e, 1⟩ t = (⟨e + I, 1⟩, e + I) := by
  simp only [throttleCall]
  rw [if_neg h, if_neg (by omega : ¬ (1:Nat) < 1),
    Nat.max_eq_left (by omega : t ≤ e + I)]

/-- After the first execution, consecutive executions of the throttled
function are at least one interval apart. -/
theorem throttleExecs_spacing (I : Nat) (ts : List Nat) (e : Nat) :
    List.Chain' (fun x y => x + I ≤ y) (e :: throttleExecs I ⟨e, 1⟩ ts) := by
  induction ts generalizing e with
  | nil => simp [throttleExecs]
  | cons t ts ih =>
    by_cases hc : I < t - e
    · rw [throttleExecs, throttleCall_jump hc]
      exact List.Chain'.cons (by omega) (ih t)
    · rw [throttleExecs, throttleCall_defer hc]
      exact List.Chain'.cons (by omega) (ih (e + I))

/-- C1: for every sequence of records passed to `write` while the
writability flag stays true (the sink accepts every chunk), decompressing
the produced output stream and splitting it on newlines yields exactly the
JSON serialization of each record, one record per line, in the order the
`write` calls were made. -/
theorem claim_c1_ndjson_order (msgs : List LogMessage) (lines : List (List Char))
    (h : msgs.map stringifyMsg = lines.map some) :
    (run initState (msgs.map (fun m => Event.ewrite m true))).writable = true ∧
    ndjsonLines (decompressedOutput
        (run initState (msgs.map (fun m => Event.ewrite m true)))) = lines := by
  have hrun := run_writes_ok msgs lines initState rfl h
  rw [hrun]
  refine ⟨rfl, ?_⟩
  unfold decompressedOutput
  show ndjsonLines ((initState.sink ++ lines.map fun l => l ++ ['\n']).flatten) = lines
  rw [show initState.sink = [] from rfl, List.nil_append]
  apply ndjsonLines_flatten
  intro l hl
  have hmem : some l ∈ msgs.map stringifyMsg := by
    rw [h]
    exact List.mem_map_of_mem _ hl
  rcases List.mem_map.mp hmem with ⟨m, _, hm⟩
  exact newline_not_mem_stringifyMsg hm

theorem claim_c1_witness :
    ([msgA, msgB].map stringifyMsg
        = [(stringifyMsg msgA).getD [], (stringifyMsg msgB).getD []].map some) ∧
    ((run initState ([msgA, msgB].map (fun m => Event.ewrite m true))).writable = true ∧
      ndjsonLines (decompressedOutput
          (run initState ([msgA, msgB].map (fun m => Event.ewrite m true))))
        = [(stringifyMsg msgA).getD [], (stringifyMsg msgB).getD []]) :=
  ⟨by decide, claim_c1_ndjson_order _ _ (by decide)⟩

/-- C2: if exactly N consecutive `write` calls occur while the writability
flag is false, then on the sink's drain signal exactly one synthetic
warning record is pushed, whose message states the suppressed count N
(`Warning: ` followed by the design document's
`Suppressed N message(s) due to high load` line), with `isSystem` and
`isStdErr` both true; the N dropped records leave no other trace in the
output, and the drop counter is 0 immediately afterwards. -/
theorem claim_c2_suppressed_warning (st : SessionState)
    (ps : List (LogMessage × Bool)) (now : Int) (accept : Bool)
    (hw : st.writable = false) (hd : st.dropCount = 0) (hne : ps ≠ []) :
    (run st (ps.map (fun p => Event.ewrite p.1 p.2)
        ++ [Event.edrain now accept])).sink
      = st.sink ++ [warningLine ps.length now] ∧
    (run st (ps.map (fun p => Event.ewrite p.1 p.2)
        ++ [Event.edrain now accept])).dropCount = 0 ∧
    (stringifyMsg (warningMsg ps.length now)).isSome = true ∧
    warningMsg ps.length now
      = [("message", JVal.jstr ("Warning: " ++ specSuppressedLine ps.length)),
         ("timestamp", JVal.jnum now),
         ("isSystem", JVal.jbool true),
         ("isStdErr", JVal.jbool true)] := by
  have hfields : warningMsg ps.length now
      = [("message", JVal.jstr ("Warning: " ++ specSuppressedLine ps.length)),
         ("timestamp", JVal.jnum now),
         ("isSystem", JVal.jbool true),
         ("isStdErr", JVal.jbool true)] := by
    unfold warningMsg specSuppressedLine
    rw [← String.append_assoc, ← String.append_assoc]
    rfl
  have hrun : run st (ps.map (fun p => Event.ewrite p.1 p.2)
        ++ [Event.edrain now accept])
      = ⟨accept, 0, st.sink ++ [warningLine ps.length now]⟩ := by
    rw [run_append, run_writes_dropped ps st hw, run_cons, run_nil]
    show drain ⟨false, st.dropCount + ps.length, st.sink⟩ now accept = _
    rw [hd, Nat.zero_add]
    exact drain_with_drops ⟨false, ps.length, st.sink⟩ now accept
      (List.length_pos.mpr hne)
  rw [hrun]
  exact ⟨rfl, rfl, stringifyMsg_warningMsg_isSome _ _, hfields⟩

theorem claim_c2_witness :
    ((⟨false, 0, []⟩ : SessionState).writable = false ∧
     (⟨false, 0, []⟩ : SessionState).dropCount = 0 ∧
     ([(msgA, true), (msgB, true), (msgA, true)] : List (LogMessage × Bool)) ≠ []) ∧
    ((run ⟨false, 0, []⟩
        (([(msgA, true), (msgB, true), (msgA, true)] : List (LogMessage × Bool)).map
            (fun p => Event.ewrite p.1 p.2) ++ [Event.edrain 7 true])).sink
      = [] ++ [warningLine 3 7] ∧
     (run ⟨false, 0, []⟩
        (([(msgA, true), (msgB, true), (msgA, true)] : List (LogMessage × Bool)).map
            (fun p => Event.ewrite p.1 p.2) ++ [Event.edrain 7 true])).dropCount = 0 ∧
     (stringifyMsg (warningMsg 3 7)).isSome = true ∧
     warningMsg 3 7
       = [("message", JVal.jstr ("Warning: " ++ specSuppressedLine 3)),
          ("timestamp", JVal.jnum 7),
          ("isSystem", JVal.jbool true),
          ("isStdErr", JVal.jbool true)]) :=
  ⟨⟨rfl, rfl, by decide⟩,
   claim_c2_suppressed_warning ⟨false, 0, []⟩
     [(msgA, true), (msgB, true), (msgA, true)] 7 true rfl rfl (by decide)⟩

/-- C3 counterexample: in src/lib/index.ts a 401 response during the grace
period does not reject the constructor's returned promise.  The `response`
handler throws from inside an event callback, and the promise executor
(line 17) binds no `reject` at all, so the promise is never rejected — the
`LoggerError` (which does carry the status code) surfaces as an uncaught
exception. -/
theorem claim_c3_counterexample :
    (indexConstruct (some (TermEvent.response 401))).isRejected = false ∧
    indexConstruct (some (TermEvent.response 401))
      = Outcome.thrown
          "Received response from log backend with status code: 401" :=
  ⟨rfl, rfl⟩

/-- C3 amended: if the remote endpoint sends a response with a non-2xx
status before the grace period elapses, the construction attempt is
aborted with a `LoggerError` carrying the observed status code — in
src/lib/got.ts by rejecting the constructor's promise, in src/lib/index.ts
by an uncaught throw that leaves the promise unsettled; each of the four
terminal conditions likewise immediately aborts the attempt, so the
promise never resolves with the write function and no body bytes are ever
sent (body bytes are produced only through the resolved write function). -/
theorem claim_c3_amended (c : Nat) (e : TermEvent) :
    gotConstruct (some (TermEvent.response c))
      = Outcome.rejected
          ("Received response from log backend with status code: "
            ++ toString c) ∧
    indexConstruct (some (TermEvent.response c))
      = Outcome.thrown
          ("Received response from log backend with status code: "
            ++ toString c) ∧
    (gotConstruct (some e)).isResolved = false ∧
    (indexConstruct (some e)).isResolved = false := by
  refine ⟨rfl, rfl, ?_, ?_⟩ <;> cases e <;> rfl

/-- C4: if none of the four terminal conditions fires within the grace
period (default 5 seconds) after the headers are flushed, the `Logger`
constructor resolves successfully with a write function, and that write
function accepts calls immediately: the session starts writable and the
very first `write` pushes its serialized line into the sink. -/
theorem claim_c4_quiet_grace_resolves (m : LogMessage) (l : List Char)
    (a : Bool) (h : stringifyMsg m = some l) :
    indexConstruct none = Outcome.resolvedWrite ∧
    RESPONSE_GRACE_PERIOD = 5000 ∧
    initState.writable = true ∧
    write initState m a = ⟨a, 0, [l ++ ['\n']]⟩ := by
  refine ⟨rfl, rfl, rfl, ?_⟩
  rw [write_ok a rfl h]
  rfl

theorem claim_c4_witness :
    stringifyMsg msgA = some ((stringifyMsg msgA).getD []) ∧
    (indexConstruct none = Outcome.resolvedWrite ∧
     RESPONSE_GRACE_PERIOD = 5000 ∧
     initState.writable = true ∧
     write initState msgA true
       = ⟨true, 0, [(stringifyMsg msgA).getD [] ++ ['\n']]⟩) :=
  ⟨by decide, claim_c4_quiet_grace_resolves msgA _ true (by decide)⟩

/-- C5: `write` never raises to its caller: a record whose serialization
throws is caught and discarded — the state is left intact — and the next
valid `write` succeeds exactly as if the failing call had not happened. -/
theorem claim_c5_throw_does_not_block_next (st : SessionState)
    (bad good : LogMessage) (l : List Char) (a b : Bool)
    (hw : st.writable = true) (hbad : stringifyMsg bad = none)
    (hgood : stringifyMsg good = some l) :
    run st [Event.ewrite bad b, Event.ewrite good a]
      = ⟨a, st.dropCount, st.sink ++ [l ++ ['\n']]⟩ := by
  rw [run_cons]
  show run (write st bad b) [Event.ewrite good a] = _
  rw [write_serialize_throw b hw hbad, run_cons, run_nil]
  show write st good a = _
  exact write_ok a hw hgood

theorem claim_c5_witness :
    (initState.writable = true ∧
     stringifyMsg badMsg = none ∧
     stringifyMsg msgA = some ((stringifyMsg msgA).getD [])) ∧
    run initState [Event.ewrite badMsg true, Event.ewrite msgA true]
      = ⟨true, 0, [] ++ [(stringifyMsg msgA).getD [] ++ ['\n']]⟩ :=
  ⟨⟨rfl, by decide, by decide⟩,
   claim_c5_throw_does_not_block_next initState badMsg msgA _ true true
     rfl (by decide) (by decide)⟩

/-- C6: invariant — while the writability flag is false, a `write` call
never pushes any bytes into the sink; it only increments the drop counter
by exactly one and discards the record, leaving the flag false. -/
theorem claim_c6_unwritable_never_pushes (st : SessionState)
    (m : LogMessage) (a : Bool) (h : st.writable = false) :
    (write st m a).sink = st.sink ∧
    (write st m a).dropCount = st.dropCount + 1 ∧
    (write st m a).writable = false := by
  rw [write_not_writable m a h]
  exact ⟨rfl, rfl, rfl⟩

theorem claim_c6_witness :
    (⟨false, 4, []⟩ : SessionState).writable = false ∧
    ((write ⟨false, 4, []⟩ msgA true).sink
        = (⟨false, 4, []⟩ : SessionState).sink ∧
     (write ⟨false, 4, []⟩ msgA true).dropCount
        = (⟨false, 4, []⟩ : SessionState).dropCount + 1 ∧
     (write ⟨false, 4, []⟩ msgA true).writable = false) :=
  ⟨rfl, claim_c6_unwritable_never_pushes ⟨false, 4, []⟩ msgA true rfl⟩

/-- C7: flushes are rate-limited to at most one synchronizing flush per
cadence interval (`ZLIB_TIMEOUT = 100` ms): consecutive flush executions
are at least one interval apart, and for two `write` calls 50 ms apart the
second flush is deferred one whole interval, so the cadence interval
containing the two writes sees a single flush of the compressor, not two.
(`ZLIB_TIMEOUT < t0` reflects that the clock value `Date.now()` at the
first call exceeds the interval.) -/
theorem claim_c7_flush_rate_limited (t0 : Nat) (ts : List Nat)
    (h : ZLIB_TIMEOUT < t0) :
    List.Chain' (fun x y => x + ZLIB_TIMEOUT ≤ y) (flushExecTimes (t0 :: ts)) ∧
    flushExecTimes [t0, t0 + 50] = [t0, t0 + ZLIB_TIMEOUT] ∧
    (flushExecTimes [t0, t0 + 50]).countP
        (fun e => decide (e < t0 + ZLIB_TIMEOUT)) = 1 := by
  have hfirst : throttleCall ZLIB_TIMEOUT throttleInit t0 = (⟨t0, 1⟩, t0) := by
    have : ZLIB_TIMEOUT < t0 - 0 := by omega
    exact throttleCall_jump this
  have hscen : flushExecTimes [t0, t0 + 50] = [t0, t0 + ZLIB_TIMEOUT] := by
    unfold flushExecTimes
    rw [throttleExecs, hfirst]
    rw [throttleExecs, throttleCall_defer (by simp [ZLIB_TIMEOUT])]
    rfl
  refine ⟨?_, hscen, ?_⟩
  · unfold flushExecTimes
    rw [throttleExecs, hfirst]
    exact throttleExecs_spacing ZLIB_TIMEOUT ts t0
  · rw [hscen]
    rw [List.countP_cons, List.countP_cons, List.countP_nil]
    have h1 : decide (t0 < t0 + ZLIB_TIMEOUT) = true := by
      simp [ZLIB_TIMEOUT]
    have h2 : decide (t0 + ZLIB_TIMEOUT < t0 + ZLIB_TIMEOUT) = false := by
      simp
    rw [h1, h2]
    rfl

theorem claim_c7_witness :
    ZLIB_TIMEOUT < 200 ∧
    (List.Chain' (fun x y => x + ZLIB_TIMEOUT ≤ y) (flushExecTimes [200]) ∧
     flushExecTimes [200, 200 + 50] = [200, 200 + ZLIB_TIMEOUT] ∧
     (flushExecTimes [200, 200 + 50]).countP
        (fun e => decide (e < 200 + ZLIB_TIMEOUT)) = 1) :=
  ⟨by decide, claim_c7_flush_rate_limited 200 [] (by decide)⟩

/-- C8 counterexample: the request src/lib/index.ts opens carries a fourth
header, `Keep-Alive: timeout=59` (line 28), so its header list is not
exactly the three headers the claim names. -/
theorem claim_c8_counterexample :
    (indexRequest "s").headers
      ≠ [("Authorization", "Bearer s"),
         ("Content-Type", "application/x-ndjson"),
         ("Content-Encoding", "gzip")] := by
  decide

/-- C8 amended: the constructor opens exactly one outbound POST request,
whose request headers are exactly `Authorization: Bearer <secret>`,
`Content-Type: application/x-ndjson`, `Content-Encoding: gzip` and
`Keep-Alive: timeout=59`, and the headers are flushed (step index 2 of the
constructor's program order) before the promise resolves with the write
function (step index 5) — hence before any body data can be produced. -/
theorem claim_c8_amended (secret : String) :
    (indexConstructTrace secret).countP
        (fun s => match s with
          | ConstructStep.openRequest _ => true
          | _ => false) = 1 ∧
    (indexRequest secret).method = "POST" ∧
    (indexRequest secret).headers
      = [("Authorization", "Bearer " ++ secret),
         ("Content-Type", "application/x-ndjson"),
         ("Content-Encoding", "gzip"),
         ("Keep-Alive", "timeout=59")] ∧
    (indexConstructTrace secret).findIdx?
        (fun s => match s with
          | ConstructStep.flushHeadersStep => true
          | _ => false) = some 2 ∧
    (indexConstructTrace secret).findIdx?
        (fun s => match s with
          | ConstructStep.resolveWrite => true
          | _ => false) = some 5 :=
  ⟨rfl, rfl, rfl, rfl, rfl⟩

/-- C9 counterexample: the knobs of both variants are identical constants
regardless of what the caller passes — `Logger` takes only a url and a
secret, so no knob is caller-overridable. -/
theorem claim_c9_counterexample :
    indexKnobs "https://api.balena-cloud.com/device/v2/a/log-stream" "s1"
      = indexKnobs "https://api.balena-staging.com/device/v2/b/log-stream" "s2" ∧
    indexKnobs "https://api.balena-cloud.com/device/v2/a/log-stream" "s1"
      = ⟨5000, 59000⟩ ∧
    gotKnobs "https://api.balena-cloud.com" "s1"
      = gotKnobs "https://api.balena-staging.com" "s2" ∧
    gotKnobs "https://api.balena-cloud.com" "s1" = ⟨100, 262144, 5000⟩ := by
  decide

/-- C9 amended: the construction interface takes only the endpoint url and
the secret — there is no configuration argument.  The knobs exist solely
as fixed module constants: grace period 5000 ms and request timeout
59000 ms in src/lib/index.ts, and flush cadence 100 ms, maximum pending
bytes 262144 and grace period 5000 ms in the src/lib/got.ts variant; none
of them can be overridden by the caller. -/
theorem claim_c9_amended (url secret : String) :
    indexKnobs url secret
      = ⟨RESPONSE_GRACE_PERIOD, REQUEST_TIMEOUT⟩ ∧
    gotKnobs url secret
      = ⟨ZLIB_TIMEOUT, MAX_PENDING_BYTES, RESPONSE_GRACE_PERIOD⟩ ∧
    RESPONSE_GRACE_PERIOD = 5000 ∧
    REQUEST_TIMEOUT = 59000 ∧
    ZLIB_TIMEOUT = 100 ∧
    MAX_PENDING_BYTES = 262144 :=
  ⟨rfl, rfl, rfl, rfl, rfl, rfl⟩

/-- C10: a record whose serialization throws inside `write` leaves the
session state exactly unchanged: the flag keeps its previous value (the
assignment from the sink's return value never executes), the drop counter
is not incremented, and nothing reaches the sink. -/
theorem claim_c10_throwing_write_pure (st : SessionState) (m : LogMessage)
    (a : Bool) (hw : st.writable = true) (hs : stringifyMsg m = none) :
    write st m a = st :=
  write_serialize_throw a hw hs

theorem claim_c10_witness :
    (initState.writable = true ∧ stringifyMsg badMsg = none) ∧
    write initState badMsg false = initState :=
  ⟨⟨rfl, by decide⟩,
   claim_c10_throwing_write_pure initState badMsg false rfl (by decide)⟩

end LogStreamer
